import Mathlib

/-!
Verification development for the HeatSync backend (NestJS + Drizzle/Postgres).

Shallow embedding of:
* the Change-Gate (TemperatureService.saveIfChanged),
* the Aggregator (TemperatureService.aggregateAndStore),
* the Alert Rule Evaluator (AlertsService.checkAlerts, sendAlertEmail).

Modelling conventions:
* Timestamps are integers: epoch seconds for reading receipt times
  (`taken_at`), epoch milliseconds where the code uses Date.getTime().
* Temperatures, humidities and thresholds are rationals; the Postgres `real`
  columns and JS numbers are modelled exactly (no floating-point rounding).
* Postgres floor(extract(epoch ...)/w)*w is Int.fdiv followed by
  multiplication; date_trunc on minute/hour/day in a UTC session equals
  flooring epoch seconds to 60/3600/86400 (UTC days are exact 86400-second
  multiples of the epoch).
* The database tables are lists of records; SQL filters are list filters,
  inserts are appends, the per-device DELETE is a filter.
* JS string comparison (used on zero-padded HH:mm strings) is lexicographic
  comparison of the character sequences.
* JS truthiness tests on numbers coming from `real` columns (the
  `x ? Number(x) : null` pattern in saveIfChanged) are modelled by
  `truthyQ`: the number 0 is falsy, as are null and undefined.
-/

namespace HeatSync

/-! ## Definitions (shallow embedding of the source) -/

/-- Lexicographic comparison of character lists, exactly the semantics of the
JavaScript string `<` operator on the ASCII strings compared in the code. -/
def jsLtb : List Char → List Char → Bool
  | [], [] => false
  | [], _ :: _ => true
  | _ :: _, [] => false
  | a :: as, b :: bs => if a < b then true else if b < a then false else jsLtb as bs

/-- JS string strict less-than. -/
def jsStrLt (a b : String) : Bool := jsLtb a.data b.data

/-- JS string strict greater-than. -/
def jsStrGt (a b : String) : Bool := jsStrLt b a

/-- JS string less-or-equal: in JS, a less-or-equal b iff not (b less than a). -/
def jsStrLe (a b : String) : Bool := !jsStrLt b a

/-- A row of the temperature_readings table.  takenAt is the server receipt
time (epoch seconds, `taken_at ... defaultNow()`); deviceId is nullable. -/
structure Reading where
  takenAt : Int
  temperatureC : ℚ
  humidity : Option ℚ
  deviceId : Option String
deriving DecidableEq, Repr

/-- Number(x.toFixed(2)): round to 2 decimal places, ties away from zero. -/
def round2 (q : ℚ) : ℚ :=
  if 0 ≤ q then (⌊q * 100 + 1 / 2⌋ : ℚ) / 100 else -((⌊-q * 100 + 1 / 2⌋ : ℚ) / 100)

/-- The JS truthiness test applied by saveIfChanged to numbers read back from
nullable (or absent) `real` columns: `x ? Number(x) : null` yields null for a
missing row, a NULL column, and the number 0 (which is falsy in JS). -/
def truthyQ : Option ℚ → Option ℚ
  | none => none
  | some q => if q = 0 then none else some q

/-- The `ORDER BY taken_at DESC LIMIT 1` lookup of the most recent stored
reading for a device (first row wins among equal timestamps). -/
def latestFor (d : String) (store : List Reading) : Option Reading :=
  (store.filter (fun r => decide (r.deviceId = some d))).foldl
    (fun acc r =>
      match acc with
      | none => some r
      | some a => if a.takenAt < r.takenAt then some r else some a)
    none

/-- TemperatureService.saveIfChanged: insert the reading unless both the
temperature and the humidity are unchanged from the most recent stored
reading at 2-decimal rounding.  Mirrors the source line by line, including
the truthiness conversion of the prior values. -/
def saveIfChanged (temperature : ℚ) (deviceId : String) (humidity : Option ℚ)
    (now : Int) (store : List Reading) : List Reading :=
  let last := latestFor deviceId store
  let lastValue : Option ℚ := truthyQ (last.map (fun r => r.temperatureC))
  let lastHumidity : Option ℚ := truthyQ (last.bind (fun r => r.humidity))
  let tempChanged : Bool :=
    match lastValue with
    | none => true
    | some lv => decide (round2 lv ≠ round2 temperature)
  let humidityChanged : Bool :=
    match humidity with
    | none => false
    | some h =>
      match lastHumidity with
      | none => true
      | some lh => decide (round2 lh ≠ round2 h)
  if !tempChanged && !humidityChanged then store
  else store ++ [⟨now, temperature, humidity, some deviceId⟩]

/-- The granularity union type of aggregateAndStore. -/
inductive Gran
  | g1m
  | g5m
  | g1h
  | g6h
  | g1d
deriving DecidableEq, Repr

/-- The bucketStart SQL expression of aggregateAndStore: 5m and 6h floor the
epoch to 300- and 21600-second boundaries; 1m, 1h and 1d use
date_trunc(minute/hour/day) which, on UTC timestamps expressed as epoch
seconds, floors to 60-, 3600- and 86400-second boundaries. -/
def bucketStart (g : Gran) (t : Int) : Int :=
  match g with
  | .g5m => t.fdiv 300 * 300
  | .g6h => t.fdiv 21600 * 21600
  | .g1m => t.fdiv 60 * 60
  | .g1h => t.fdiv 3600 * 3600
  | .g1d => t.fdiv 86400 * 86400

/-- Bucket width in seconds (helper for uniform reasoning). -/
def granWidth : Gran → Int
  | .g1m => 60
  | .g5m => 300
  | .g1h => 3600
  | .g6h => 21600
  | .g1d => 86400

/-- The closed time-range predicate used by every query in aggregateAndStore:
gte(taken_at, from) AND lte(taken_at, to). -/
def inRange (lo hi t : Int) : Bool := decide (lo ≤ t) && decide (t ≤ hi)

/-- The readings of one device (or of NULL device) inside the window,
matching the per-device WHERE clause of aggregateAndStore. -/
def readingsFor (rs : List Reading) (lo hi : Int) (d : Option String) : List Reading :=
  rs.filter (fun r => inRange lo hi r.takenAt && decide (r.deviceId = d))

/-- selectDistinct deviceId over the readings in the window. -/
def distinctDevices (rs : List Reading) (lo hi : Int) : List (Option String) :=
  ((rs.filter (fun r => inRange lo hi r.takenAt)).map (fun r => r.deviceId)).dedup

/-- Insertion into a sorted list (ascending). -/
def insertSorted {α : Type} [LinearOrder α] (x : α) : List α → List α
  | [] => [x]
  | y :: ys => if x ≤ y then x :: y :: ys else y :: insertSorted x ys

/-- Insertion sort, ascending; models SQL ORDER BY. -/
def sortL {α : Type} [LinearOrder α] : List α → List α
  | [] => []
  | x :: xs => insertSorted x (sortL xs)

/-- percentile_cont(0.5) WITHIN GROUP (ORDER BY v): the continuous median —
the middle element for odd length, the mean of the two middle elements for
even length.  (Only ever applied to non-empty groups; 0 is a junk default.) -/
def median (l : List ℚ) : ℚ :=
  let s := sortL l
  let n := s.length
  if n % 2 = 1 then s.getD (n / 2) 0
  else (s.getD (n / 2 - 1) 0 + s.getD (n / 2) 0) / 2

/-- A row of the temperature_aggregates table. -/
structure AggRow where
  bucketStart : Int
  granularity : Gran
  medianC : ℚ
  deviceId : Option String
deriving DecidableEq, Repr

/-- The GROUP BY bucketStart / ORDER BY bucketStart query: one (bucket
start, median temperature) row per distinct bucket of the given readings. -/
def groupRows (g : Gran) (rs : List Reading) : List (Int × ℚ) :=
  (sortL ((rs.map (fun r => bucketStart g r.takenAt)).dedup)).map
    (fun b =>
      (b, median ((rs.filter (fun r => decide (bucketStart g r.takenAt = b))).map
        (fun r => r.temperatureC))))

/-- The rows aggregateAndStore inserts for one device. -/
def valuesFor (g : Gran) (lo hi : Int) (d : Option String) (rs : List Reading) :
    List AggRow :=
  (groupRows g (readingsFor rs lo hi d)).map (fun p => ⟨p.1, g, p.2, d⟩)

/-- The per-device DELETE predicate of aggregateAndStore: bucket_start in
[from, to], same granularity, same device. -/
def delPred (g : Gran) (lo hi : Int) (d : Option String) (a : AggRow) : Bool :=
  inRange lo hi a.bucketStart && decide (a.granularity = g) && decide (a.deviceId = d)

/-- One iteration of the device loop of aggregateAndStore: if the grouped
rows are empty, continue; otherwise delete the device's buckets of this
granularity inside the window, then insert the recomputed rows. -/
def stepDevice (g : Gran) (lo hi : Int) (rs : List Reading)
    (store : List AggRow) (d : Option String) : List AggRow :=
  let vals := valuesFor g lo hi d rs
  if vals = [] then store
  else (store.filter (fun a => !delPred g lo hi d a)) ++ vals

/-- TemperatureService.aggregateAndStore as a state transformer on the
temperature_aggregates table. -/
def aggregateAndStore (g : Gran) (lo hi : Int) (rs : List Reading)
    (store : List AggRow) : List AggRow :=
  (distinctDevices rs lo hi).foldl (stepDevice g lo hi rs) store

/-- Half-open membership [from, to), as the specification words it; used
only to compare the specification against the code, which uses inRange. -/
def inRangeHalfOpenSpec (lo hi t : Int) : Bool := decide (lo ≤ t) && decide (t < hi)

/-- A row of the alerts table.  Dates and the last-triggered time are epoch
milliseconds (JS Date .getTime()); start/end times-of-day are validated
non-empty HH:mm strings, so a present value is always truthy in JS. -/
structure AlertRule where
  id : Nat
  deviceId : Option String
  type : String
  minThreshold : Option ℚ
  maxThreshold : Option ℚ
  startTime : Option String
  endTime : Option String
  startDate : Option Int
  endDate : Option Int
  daysOfWeek : Option (List Nat)
  emails : List String
  enabled : Bool
  lastTriggeredAt : Option Int
deriving DecidableEq, Repr

/-- The wall-clock data checkAlerts derives once per invocation: now
(epoch milliseconds), now.getDay(), and the zero-padded HH:mm string built
from getHours/getMinutes. -/
structure Now where
  epochMs : Int
  day : Nat
  timeStr : String
deriving DecidableEq, Repr

/-- Step 1 of checkAlerts: skip when a start date is set and now precedes
it, or an end date is set and now follows it (Date objects are truthy
whenever non-null; comparison is by millisecond value). -/
def dateGateSkip (a : AlertRule) (n : Now) : Bool :=
  (match a.startDate with
   | some sd => decide (n.epochMs < sd)
   | none => false) ||
  (match a.endDate with
   | some ed => decide (n.epochMs > ed)
   | none => false)

/-- Step 2 of checkAlerts: skip when a non-empty weekday array is configured
and the current weekday is not in it. -/
def dayGateSkip (a : AlertRule) (n : Now) : Bool :=
  match a.daysOfWeek with
  | some ds => decide (ds.length > 0) && !(ds.contains n.day)
  | none => false

/-- Step 3 of checkAlerts: the time-of-day gate, applied only when both a
start and an end time are configured.  Same-day windows (start LE end) skip
outside [start, end]; overnight windows (start GT end) skip when the current
time is strictly between the end and the start.  All comparisons are JS
string comparisons of zero-padded HH:mm strings. -/
def timeGateSkip (a : AlertRule) (n : Now) : Bool :=
  match a.startTime, a.endTime with
  | some s, some e =>
    if jsStrLe s e then jsStrLt n.timeStr s || jsStrGt n.timeStr e
    else jsStrLt n.timeStr s && jsStrGt n.timeStr e
  | _, _ => false

/-- Step 4 of checkAlerts: select the metric matching the rule's kind and
test the thresholds.  A temperature rule compares the temperature; a
humidity rule with a humidity present compares it; a humidity rule with no
humidity in this event leaves triggered = false and value = 0.  Thresholds
are checked with explicit null tests (no truthiness) and strict
inequalities. -/
def triggeredValue (a : AlertRule) (temperature : ℚ) (humidity : Option ℚ) :
    Bool × ℚ :=
  if a.type = "temperature" then
    ((match a.minThreshold with
      | some m => decide (temperature < m)
      | none => false) ||
     (match a.maxThreshold with
      | some m => decide (temperature > m)
      | none => false), temperature)
  else if a.type = "humidity" then
    match humidity with
    | some h =>
      ((match a.minThreshold with
        | some m => decide (h < m)
        | none => false) ||
       (match a.maxThreshold with
        | some m => decide (h > m)
        | none => false), h)
    | none => (false, 0)
  else (false, 0)

/-- AlertsService.sendAlertEmail: the Resend call is wrapped in try/catch.
A success is logged and returns true; a failure is caught and logged and
returns false.  In both cases the method returns normally — the error is
never rethrown and the send is never retried. -/
def sendAlertEmail (sinkResult : Except String Unit) : Bool :=
  match sinkResult with
  | .ok _ => true
  | .error _ => false

/-- Observable outcome of evaluating one rule against one event: the rule's
last-triggered timestamp after the evaluation (the only column checkAlerts
ever updates), whether a notification was fired, how many times the
Notification Sink was invoked, and how many sink errors were logged. -/
structure StepOut where
  lastTriggeredAt : Option Int
  fired : Bool
  sendAttempts : Nat
  errorsLogged : Nat
deriving DecidableEq, Repr

/-- The body of the checkAlerts loop for a single (already device-matched,
enabled) rule: date gate, weekday gate, time gate, threshold check, throttle
gate, then fire — send the email (outcome ignored beyond logging) and
unconditionally set lastTriggeredAt to now. -/
def evalAlert (sinkResult : Except String Unit) (a : AlertRule) (n : Now)
    (temperature : ℚ) (humidity : Option ℚ) : StepOut :=
  if dateGateSkip a n then ⟨a.lastTriggeredAt, false, 0, 0⟩
  else if dayGateSkip a n then ⟨a.lastTriggeredAt, false, 0, 0⟩
  else if timeGateSkip a n then ⟨a.lastTriggeredAt, false, 0, 0⟩
  else if (triggeredValue a temperature humidity).1 then
    match a.lastTriggeredAt with
    | some lt =>
      if n.epochMs - lt < 3600000 then ⟨a.lastTriggeredAt, false, 0, 0⟩
      else ⟨some n.epochMs, true, 1, if sendAlertEmail sinkResult then 0 else 1⟩
    | none => ⟨some n.epochMs, true, 1, if sendAlertEmail sinkResult then 0 else 1⟩
  else ⟨a.lastTriggeredAt, false, 0, 0⟩

/-- All scheduling gates pass (none of steps 1-3 skips the rule). -/
def gatesPass (a : AlertRule) (n : Now) : Bool :=
  !dateGateSkip a n && !dayGateSkip a n && !timeGateSkip a n

/-- AlertsService.checkAlerts over the alerts table: select the enabled
rules of the device, evaluate each, persist each fired rule's new
lastTriggeredAt (UPDATE by id, ids assumed distinct), and count the fired
notifications. -/
def checkAlerts (sinkResult : Except String Unit) (rules : List AlertRule)
    (deviceId : String) (n : Now) (temperature : ℚ) (humidity : Option ℚ) :
    List AlertRule × Nat :=
  (rules.map (fun a =>
    if decide (a.deviceId = some deviceId) && a.enabled then
      { a with lastTriggeredAt := (evalAlert sinkResult a n temperature humidity).lastTriggeredAt }
    else a),
   (rules.filter (fun a => decide (a.deviceId = some deviceId) && a.enabled)).countP
     (fun a => (evalAlert sinkResult a n temperature humidity).fired))

/-- Repeated evaluation of one rule over a sequence of events (each a
wall-clock instant with a temperature and optional humidity), threading the
rule's last-triggered timestamp and counting fired notifications, with a
healthy Notification Sink. -/
def runEvents (a : AlertRule) (events : List (Now × ℚ × Option ℚ)) :
    AlertRule × Nat :=
  events.foldl
    (fun st ev =>
      let out := evalAlert (.ok ()) st.1 ev.1 ev.2.1 ev.2.2
      ({ st.1 with lastTriggeredAt := out.lastTriggeredAt },
       st.2 + (if out.fired then 1 else 0)))
    (a, 0)

/-- State of the subsystem for the end-to-end ingestion scenario: the
temperature_readings table, the alerts table, and the number of
notifications fired so far. -/
structure SystemState where
  readings : List Reading
  rules : List AlertRule
  notifications : Nat
deriving DecidableEq, Repr

/-- Modelled from the spec: the ingestion chain wiring is not under src/ —
the MQTT message handler present there persists via saveIfChanged only and
never invokes checkAlerts.  Per spec sections 2, 4.1, 4.3 and 5, each
inbound message runs the Change-Gate (saveIfChanged) and, for every
accepted (persisted) Reading, synchronously runs the Alert Rule Evaluator
(checkAlerts) against the device's enabled rules; a dropped reading skips
evaluation.  Returns the new state and whether any notification fired. -/
def ingestEvent (st : SystemState) (deviceId : String) (temperature : ℚ)
    (humidity : Option ℚ) (n : Now) : SystemState × Bool :=
  let rds := saveIfChanged temperature deviceId humidity n.epochMs st.readings
  if rds.length = st.readings.length then
    ({ st with readings := rds }, false)
  else
    let ca := checkAlerts (.ok ()) st.rules deviceId n temperature humidity
    (⟨rds, ca.1, st.notifications + ca.2⟩, decide (0 < ca.2))

/-- Modelled from the spec: fold ingestEvent over a list of inbound
messages, returning the final state and the per-event fired flags. -/
def ingestTrace (st : SystemState) :
    List (String × ℚ × Option ℚ × Now) → SystemState × List Bool
  | [] => (st, [])
  | e :: es =>
    let r := ingestEvent st e.1 e.2.1 e.2.2.1 e.2.2.2
    let rest := ingestTrace r.1 es
    (rest.1, r.2 :: rest.2)

/-- The rule of the end-to-end scenario: enabled temperature rule for device
d1 with min threshold 21, no max, no schedule restrictions, parameterised by
its last-triggered timestamp (its only mutable column). -/
def rule7L (l : Option Int) : AlertRule :=
  ⟨1, some "d1", "temperature", some 21, none, none, none, none, none, none,
   ["ops@example.com"], true, l⟩

/-- Concatenation of the per-device inserted rows over a device list. -/
def joinVals (g : Gran) (lo hi : Int) (rs : List Reading) :
    List (Option String) → List AggRow
  | [] => []
  | d :: ds => valuesFor g lo hi d rs ++ joinVals g lo hi rs ds

/-- The (device, granularity, bucket start) key test of an aggregate row —
the unique-identity key of AggregateBucket records. -/
def aggKey (d : Option String) (g : Gran) (b : Int) (a : AggRow) : Bool :=
  decide (a.deviceId = d) && decide (a.granularity = g) && decide (a.bucketStart = b)

/-- All rows of the aggregate store surviving the per-device deletes of a
full run over the device list D. -/
def deleteAll (g : Gran) (lo hi : Int) (D : List (Option String))
    (S : List AggRow) : List AggRow :=
  S.filter (fun a => !(D.any (fun dd => delPred g lo hi dd a)))

/-! ## Theorems -/

theorem bucketStart_eq_width (g : Gran) (t : Int) :
    bucketStart g t = t.fdiv (granWidth g) * granWidth g := by
  cases g <;> rfl

theorem granWidth_pos (g : Gran) : 0 < granWidth g := by
  cases g <;> decide

/-- Rounding to 2 decimals fixes the integer 20. -/
theorem round2_20 : round2 (20 : ℚ) = 20 := by norm_num [round2]

/-- Rounding to 2 decimals fixes 20.01. -/
theorem round2_2001 : round2 (2001 / 100 : ℚ) = 2001 / 100 := by norm_num [round2]

/-- Rounding to 2 decimals fixes 22.50. -/
theorem round2_452 : round2 (45 / 2 : ℚ) = 45 / 2 := by norm_num [round2]

theorem rule7L_deviceId (l : Option Int) : (rule7L l).deviceId = some "d1" := rfl

theorem rule7L_enabled (l : Option Int) : (rule7L l).enabled = true := rfl

/-- Change-Gate: a first reading for a device is always stored. -/
theorem sic_first (t : Int) :
    saveIfChanged 20 "d1" none t [] = [⟨t, 20, none, some "d1"⟩] := by
  simp [saveIfChanged, latestFor, truthyQ]

/-- Change-Gate: an exact repeat of temperature 20.00 is dropped. -/
theorem sic_repeat (t u : Int) :
    saveIfChanged 20 "d1" none u [⟨t, 20, none, some "d1"⟩]
    = [⟨t, 20, none, some "d1"⟩] := by
  simp [saveIfChanged, latestFor, truthyQ]

/-- Change-Gate: 20.01 after 20.00 differs at 2-decimal rounding and is
stored. -/
theorem sic_third (t u : Int) :
    saveIfChanged (2001 / 100) "d1" none u [⟨t, 20, none, some "d1"⟩]
    = [⟨t, 20, none, some "d1"⟩, ⟨u, 2001 / 100, none, some "d1"⟩] := by
  simp [saveIfChanged, latestFor, truthyQ, round2_20, round2_2001]
  all_goals norm_num

/-- Change-Gate: 22.50 after 20.01 differs and is stored. -/
theorem sic_fourth (t u v : Int) (htu : t < u) :
    saveIfChanged (45 / 2) "d1" none v
      [⟨t, 20, none, some "d1"⟩, ⟨u, 2001 / 100, none, some "d1"⟩]
    = [⟨t, 20, none, some "d1"⟩, ⟨u, 2001 / 100, none, some "d1"⟩,
       ⟨v, 45 / 2, none, some "d1"⟩] := by
  simp [saveIfChanged, latestFor, truthyQ, round2_2001, round2_452, htu]
  all_goals norm_num

/-- The scenario rule fires at temperature 20.00: 20 is below the min
threshold 21, and there is no last-triggered timestamp yet. -/
theorem ea_first (n : Now) :
    evalAlert (.ok ()) (rule7L none) n 20 none = ⟨some n.epochMs, true, 1, 0⟩ := by
  simp [evalAlert, dateGateSkip, dayGateSkip, timeGateSkip, triggeredValue,
    sendAlertEmail, rule7L]
  all_goals norm_num

/-- The scenario rule is throttled at temperature 20.01 when inside the
cooldown: triggered, but suppressed with state unchanged. -/
theorem ea_third (n : Now) (l : Int) (h : n.epochMs - l < 3600000) :
    evalAlert (.ok ()) (rule7L (some l)) n (2001 / 100) none = ⟨some l, false, 0, 0⟩ := by
  simp [evalAlert, dateGateSkip, dayGateSkip, timeGateSkip, triggeredValue, rule7L, h]

/-- The scenario rule does not trigger at temperature 22.50: 22.5 is not
below the min threshold 21 and no max threshold is set. -/
theorem ea_fourth (n : Now) (l : Int) :
    evalAlert (.ok ()) (rule7L (some l)) n (45 / 2) none = ⟨some l, false, 0, 0⟩ := by
  simp [evalAlert, dateGateSkip, dayGateSkip, timeGateSkip, triggeredValue, rule7L]
  all_goals norm_num

theorem ca_first (n : Now) :
    checkAlerts (.ok ()) [rule7L none] "d1" n 20 none
    = ([rule7L (some n.epochMs)], 1) := by
  simp only [checkAlerts, List.map, List.filter, List.countP, List.countP.go,
    rule7L_deviceId, rule7L_enabled, ea_first]
  simp [rule7L]

theorem ca_third (n : Now) (l : Int) (h : n.epochMs - l < 3600000) :
    checkAlerts (.ok ()) [rule7L (some l)] "d1" n (2001 / 100) none
    = ([rule7L (some l)], 0) := by
  simp only [checkAlerts, List.map, List.filter, List.countP, List.countP.go,
    rule7L_deviceId, rule7L_enabled, ea_third n l h]
  simp [rule7L]

theorem ca_fourth (n : Now) (l : Int) :
    checkAlerts (.ok ()) [rule7L (some l)] "d1" n (45 / 2) none
    = ([rule7L (some l)], 0) := by
  simp only [checkAlerts, List.map, List.filter, List.countP, List.countP.go,
    rule7L_deviceId, rule7L_enabled, ea_fourth]
  simp [rule7L]

theorem ie_first (m : Now) :
    ingestEvent ⟨[], [rule7L none], 0⟩ "d1" 20 none m
    = (⟨[⟨m.epochMs, 20, none, some "d1"⟩], [rule7L (some m.epochMs)], 1⟩, true) := by
  simp only [ingestEvent, sic_first, ca_first, List.length]
  norm_num

theorem ie_second (t : Int) (rl : List AlertRule) (k : Nat) (m : Now) :
    ingestEvent ⟨[⟨t, 20, none, some "d1"⟩], rl, k⟩ "d1" 20 none m
    = (⟨[⟨t, 20, none, some "d1"⟩], rl, k⟩, false) := by
  simp only [ingestEvent, sic_repeat, List.length]
  norm_num

theorem ie_third (t l : Int) (k : Nat) (m : Now) (h : m.epochMs - l < 3600000) :
    ingestEvent ⟨[⟨t, 20, none, some "d1"⟩], [rule7L (some l)], k⟩ "d1"
      (2001 / 100) none m
    = (⟨[⟨t, 20, none, some "d1"⟩, ⟨m.epochMs, 2001 / 100, none, some "d1"⟩],
        [rule7L (some l)], k⟩, false) := by
  simp only [ingestEvent, sic_third, ca_third m l h, List.length]
  norm_num

theorem ie_fourth (t u l : Int) (k : Nat) (m : Now) (htu : t < u) :
    ingestEvent ⟨[⟨t, 20, none, some "d1"⟩, ⟨u, 2001 / 100, none, some "d1"⟩],
      [rule7L (some l)], k⟩ "d1" (45 / 2) none m
    = (⟨[⟨t, 20, none, some "d1"⟩, ⟨u, 2001 / 100, none, some "d1"⟩,
         ⟨m.epochMs, 45 / 2, none, some "d1"⟩], [rule7L (some l)], k⟩, false) := by
  simp only [ingestEvent, sic_fourth t u m.epochMs htu, ca_fourth, List.length]
  norm_num

/-- Claim C2 (code bug): the Change-Gate drops a reading indistinguishable
from the prior one — as witnessed by the constant-20.00 case — but the JS
truthiness conversion treats a stored temperature of exactly 0 as a missing
prior value, so a reading of 0.00 after a stored 0.00 is inserted again,
contradicting the dedup contract. -/
theorem saveIfChanged_zero_reading_inserted :
    saveIfChanged 0 "d1" none 60 [⟨0, 0, none, some "d1"⟩]
      = [⟨0, 0, none, some "d1"⟩, ⟨60, 0, none, some "d1"⟩] ∧
    saveIfChanged 20 "d1" none 60 [⟨0, 20, none, some "d1"⟩]
      = [⟨0, 20, none, some "d1"⟩] := by
  constructor
  · decide
  · simp [saveIfChanged, latestFor, truthyQ]

/-- Claim C3 (code bug): rerunning aggregateAndStore over an unchanged
reading set duplicates a bucket when the window start is not bucket-aligned:
with granularity 5m, window [420, 900] and one reading at t = 451, the
bucket starts at 300 — before the window — so the rerun's DELETE (which
covers bucket starts within [420, 900] only) misses it and the INSERT adds
a second identical row. -/
theorem aggregate_rerun_duplicates_unaligned :
    aggregateAndStore .g5m 420 900 [⟨451, 20, none, some "d1"⟩] []
      = [⟨300, .g5m, 20, some "d1"⟩] ∧
    aggregateAndStore .g5m 420 900 [⟨451, 20, none, some "d1"⟩]
        (aggregateAndStore .g5m 420 900 [⟨451, 20, none, some "d1"⟩] [])
      = [⟨300, .g5m, 20, some "d1"⟩, ⟨300, .g5m, 20, some "d1"⟩] := by
  constructor
  · decide
  · decide

/-- Claim C7 counterexample: ingesting [20.00, 20.00, 20.01, 22.50] for d1
with the enabled min-21 rule and no schedule restrictions stores 3 readings
and fires exactly one notification — but at the FIRST (20.00) reading,
since 20 is below the min threshold 21, and the rule's last-triggered time
is that first event's time (0), not the fourth event's (180000).  The
fired-flag trace [true, false, false, false] refutes the claim that the
notification fires at the 22.50 reading. -/
theorem ingest_endtoend_fires_at_first_reading :
    ingestTrace ⟨[], [rule7L none], 0⟩
      [("d1", 20, none, ⟨0, 1, "12:00"⟩), ("d1", 20, none, ⟨60000, 1, "12:01"⟩),
       ("d1", 2001 / 100, none, ⟨120000, 1, "12:02"⟩),
       ("d1", 45 / 2, none, ⟨180000, 1, "12:03"⟩)]
    = (⟨[⟨0, 20, none, some "d1"⟩, ⟨120000, 2001 / 100, none, some "d1"⟩,
         ⟨180000, 45 / 2, none, some "d1"⟩],
        [rule7L (some 0)], 1⟩,
       [true, false, false, false]) ∧
    rule7L (some 0) ≠ rule7L (some 180000) := by
  constructor
  · simp only [ingestTrace, ie_first, ie_second,
      ie_third 0 0 1 ⟨120000, 1, "12:02"⟩ (by decide),
      ie_fourth 0 120000 0 1 ⟨180000, 1, "12:03"⟩ (by decide)]
  · decide

/-- Claim C7 amended: for any event times where the third event is within
the 1-hour cooldown of the first (and the first precedes the third), the
scenario stores exactly 3 readings (the duplicate 20.00 is dropped), fires
exactly 1 notification — at the first (20.00) reading — and leaves the
rule's last-triggered time at the first event's server time. -/
theorem ingest_endtoend_amended (m1 m2 m3 m4 : Now)
    (h13 : m1.epochMs < m3.epochMs)
    (h31 : m3.epochMs - m1.epochMs < 3600000) :
    ingestTrace ⟨[], [rule7L none], 0⟩
      [("d1", 20, none, m1), ("d1", 20, none, m2),
       ("d1", 2001 / 100, none, m3), ("d1", 45 / 2, none, m4)]
    = (⟨[⟨m1.epochMs, 20, none, some "d1"⟩,
         ⟨m3.epochMs, 2001 / 100, none, some "d1"⟩,
         ⟨m4.epochMs, 45 / 2, none, some "d1"⟩],
        [rule7L (some m1.epochMs)], 1⟩,
       [true, false, false, false]) := by
  simp only [ingestTrace, ie_first, ie_second, ie_third m1.epochMs m1.epochMs 1 m3 h31,
    ie_fourth m1.epochMs m3.epochMs m1.epochMs 1 m4 h13]

/-- Witness for the amended C7 theorem at concrete event times. -/
theorem ingest_endtoend_amended_witness :
    ingestTrace ⟨[], [rule7L none], 0⟩
      [("d1", 20, none, ⟨0, 2, "08:00"⟩), ("d1", 20, none, ⟨600000, 2, "08:10"⟩),
       ("d1", 2001 / 100, none, ⟨1200000, 2, "08:20"⟩),
       ("d1", 45 / 2, none, ⟨1800000, 2, "08:30"⟩)]
    = (⟨[⟨0, 20, none, some "d1"⟩, ⟨1200000, 2001 / 100, none, some "d1"⟩,
         ⟨1800000, 45 / 2, none, some "d1"⟩],
        [rule7L (some 0)], 1⟩,
       [true, false, false, false]) :=
  ingest_endtoend_amended ⟨0, 2, "08:00"⟩ ⟨600000, 2, "08:10"⟩ ⟨1200000, 2, "08:20"⟩
    ⟨1800000, 2, "08:30"⟩ (by decide) (by decide)

/-- Claim C9: a reading that newly introduces humidity where the device's
most recent stored reading has none is always accepted, whatever its
temperature. -/
theorem saveIfChanged_new_humidity_accepted
    (temperature : ℚ) (d : String) (h : ℚ) (now : Int) (store : List Reading)
    (r : Reading) (hl : latestFor d store = some r) (hh : r.humidity = none) :
    saveIfChanged temperature d (some h) now store
    = store ++ [⟨now, temperature, some h, some d⟩] := by
  simp [saveIfChanged, hl, hh, truthyQ]

/-- Witness for C9: prior reading at 20.00 with no humidity, new reading
at the same temperature 20.00 but with humidity 50 — accepted. -/
theorem saveIfChanged_new_humidity_accepted_witness :
    latestFor "d1" [⟨0, 20, none, some "d1"⟩] = some ⟨0, 20, none, some "d1"⟩ ∧
    saveIfChanged 20 "d1" (some 50) 60 [⟨0, 20, none, some "d1"⟩]
      = [⟨0, 20, none, some "d1"⟩, ⟨60, 20, some 50, some "d1"⟩] :=
  ⟨by decide,
   saveIfChanged_new_humidity_accepted 20 "d1" 50 60 _ ⟨0, 20, none, some "d1"⟩
     (by decide) rfl⟩

/-- Claim C10: the time-of-day gate applies only when both a start and an
end time are configured; with at most one of them set, evaluation is
identical to evaluation of the same rule with no time-of-day schedule at
all. -/
theorem timeGate_single_bound_no_restriction
    (sres : Except String Unit) (a : AlertRule) (n : Now) (temperature : ℚ)
    (humidity : Option ℚ) (h : a.startTime = none ∨ a.endTime = none) :
    evalAlert sres a n temperature humidity
    = evalAlert sres { a with startTime := none, endTime := none } n temperature humidity := by
  have hg : timeGateSkip a n = false := by
    rcases h with h | h
    · simp [timeGateSkip, h]
    · cases hst : a.startTime <;> simp [timeGateSkip, h, hst]
  have hg2 : timeGateSkip { a with startTime := none, endTime := none } n = false := by
    simp [timeGateSkip]
  simp [evalAlert, hg, hg2, dateGateSkip, dayGateSkip, triggeredValue]

/-- Witness for C10: a rule with only a start time set evaluates exactly as
with no time schedule. -/
theorem timeGate_single_bound_no_restriction_witness :
    evalAlert (.ok ())
      ⟨1, some "d1", "temperature", some 21, none, some "09:00", none, none,
       none, none, ["ops@example.com"], true, none⟩ ⟨0, 1, "12:00"⟩ 20 none
    = evalAlert (.ok ())
      ⟨1, some "d1", "temperature", some 21, none, none, none, none,
       none, none, ["ops@example.com"], true, none⟩ ⟨0, 1, "12:00"⟩ 20 none :=
  timeGate_single_bound_no_restriction (.ok ())
    ⟨1, some "d1", "temperature", some 21, none, some "09:00", none, none,
     none, none, ["ops@example.com"], true, none⟩ ⟨0, 1, "12:00"⟩ 20 none (Or.inr rfl)

theorem gatesPass_spec (a : AlertRule) (n : Now) (h : gatesPass a n = true) :
    dateGateSkip a n = false ∧ dayGateSkip a n = false ∧ timeGateSkip a n = false := by
  simp only [gatesPass, Bool.and_eq_true, Bool.not_eq_true'] at h
  exact ⟨h.1.1, h.1.2, h.2⟩

theorem evalAlert_throttled (sres : Except String Unit) (a : AlertRule) (n : Now)
    (t : ℚ) (hum : Option ℚ) (l : Int)
    (hg : gatesPass a n = true) (htr : (triggeredValue a t hum).1 = true)
    (hl : a.lastTriggeredAt = some l) (hc : n.epochMs - l < 3600000) :
    evalAlert sres a n t hum = ⟨some l, false, 0, 0⟩ := by
  obtain ⟨h1, h2, h3⟩ := gatesPass_spec a n hg
  simp [evalAlert, h1, h2, h3, htr, hl, hc]

theorem evalAlert_fires (sres : Except String Unit) (a : AlertRule) (n : Now)
    (t : ℚ) (hum : Option ℚ)
    (hg : gatesPass a n = true) (htr : (triggeredValue a t hum).1 = true)
    (hnt : a.lastTriggeredAt = none ∨
      ∃ l, a.lastTriggeredAt = some l ∧ 3600000 ≤ n.epochMs - l) :
    evalAlert sres a n t hum
    = ⟨some n.epochMs, true, 1, if sendAlertEmail sres then 0 else 1⟩ := by
  obtain ⟨h1, h2, h3⟩ := gatesPass_spec a n hg
  rcases hnt with hl | ⟨l, hl, hc⟩
  · simp [evalAlert, h1, h2, h3, htr, hl]
  · simp [evalAlert, h1, h2, h3, htr, hl, not_lt.mpr hc]

theorem evalAlert_not_triggered (sres : Except String Unit) (a : AlertRule) (n : Now)
    (t : ℚ) (hum : Option ℚ) (htr : (triggeredValue a t hum).1 = false) :
    evalAlert sres a n t hum = ⟨a.lastTriggeredAt, false, 0, 0⟩ := by
  by_cases h1 : dateGateSkip a n = true
  · simp [evalAlert, h1]
  · by_cases h2 : dayGateSkip a n = true
    · simp [evalAlert, h1, h2]
    · by_cases h3 : timeGateSkip a n = true
      · simp [evalAlert, h1, h2, h3]
      · simp only [Bool.not_eq_true] at h1 h2 h3
        simp [evalAlert, h1, h2, h3, htr]
end HeatSync
namespace HeatSync

theorem gatesPass_update (a : AlertRule) (l : Option Int) (n : Now) :
    gatesPass { a with lastTriggeredAt := l } n = gatesPass a n := rfl

theorem triggeredValue_update (a : AlertRule) (l : Option Int) (t : ℚ) (hum : Option ℚ) :
    triggeredValue { a with lastTriggeredAt := l } t hum = triggeredValue a t hum := rfl

/-- Claim C4: for an overnight window (start after end in string order), the
time gate skips exactly when the current time-of-day is strictly between the
end and the start, and lets the rule proceed exactly when the current time
is at or after the start or at or before the end (both bounds included). -/
theorem checkAlerts_overnight_window (a : AlertRule) (n : Now) (s e : String)
    (hs : a.startTime = some s) (he : a.endTime = some e) (hw : jsStrLt e s = true) :
    (timeGateSkip a n = true ↔
      jsStrLt n.timeStr s = true ∧ jsStrGt n.timeStr e = true) ∧
    (timeGateSkip a n = false ↔
      jsStrLe s n.timeStr = true ∨ jsStrLe n.timeStr e = true) := by
  have hle : jsStrLe s e = false := by simp [jsStrLe, hw]
  cases hlt : jsStrLt n.timeStr s <;> cases hgt : jsStrLt e n.timeStr <;>
    simp [timeGateSkip, hs, he, hle, jsStrLe, jsStrGt, hlt, hgt, hw]

/-- Witness for C4: rule start=22:00 end=06:00 — in-window at 23:30,
out-of-window at 12:00. -/
theorem checkAlerts_overnight_window_witness :
    timeGateSkip
      ⟨1, some "d1", "temperature", some 18, some 25, some "22:00", some "06:00",
       none, none, none, ["ops@example.com"], true, none⟩ ⟨0, 1, "23:30"⟩ = false ∧
    timeGateSkip
      ⟨1, some "d1", "temperature", some 18, some 25, some "22:00", some "06:00",
       none, none, none, ["ops@example.com"], true, none⟩ ⟨0, 1, "12:00"⟩ = true :=
  ⟨(checkAlerts_overnight_window _ ⟨0, 1, "23:30"⟩ "22:00" "06:00" rfl rfl
      (by decide)).2.mpr (Or.inl (by decide)),
   (checkAlerts_overnight_window _ ⟨0, 1, "12:00"⟩ "22:00" "06:00" rfl rfl
      (by decide)).1.mpr ⟨by decide, by decide⟩⟩

/-- Claim C5: the metric compared is the one matching the rule's kind — a
humidity rule evaluated on an event with no humidity is skipped with the
rule state untouched — and the trigger condition is exactly
(min set and value strictly below min) or (max set and value strictly above
max). -/
theorem checkAlerts_threshold_strict :
    (∀ (sres : Except String Unit) (a : AlertRule) (n : Now) (t : ℚ),
      a.type = "humidity" →
      evalAlert sres a n t none = ⟨a.lastTriggeredAt, false, 0, 0⟩) ∧
    (∀ (a : AlertRule) (t : ℚ) (hum : Option ℚ), a.type = "temperature" →
      ((triggeredValue a t hum).1 = true ↔
        (∃ m, a.minThreshold = some m ∧ t < m) ∨
        (∃ m, a.maxThreshold = some m ∧ t > m))) ∧
    (∀ (a : AlertRule) (t h : ℚ), a.type = "humidity" →
      ((triggeredValue a t (some h)).1 = true ↔
        (∃ m, a.minThreshold = some m ∧ h < m) ∨
        (∃ m, a.maxThreshold = some m ∧ h > m))) := by
  refine ⟨?_, ?_, ?_⟩
  · intro sres a n t ht
    apply evalAlert_not_triggered
    simp [triggeredValue, ht]
  · intro a t hum ht
    cases amin : a.minThreshold <;> cases amax : a.maxThreshold <;>
      simp [triggeredValue, ht, amin, amax]
  · intro a t h ht
    cases amin : a.minThreshold <;> cases amax : a.maxThreshold <;>
      simp [triggeredValue, ht, amin, amax]

/-- Witness for C5: rule min=18 max=25 triggers at 26.0, not at 25.0 nor at
24.9; a humidity rule with no humidity in the event is skipped. -/
theorem checkAlerts_threshold_strict_witness :
    (triggeredValue
      ⟨1, some "d1", "temperature", some 18, some 25, none, none, none, none,
       none, ["ops@example.com"], true, none⟩ 26 none).1 = true ∧
    (triggeredValue
      ⟨1, some "d1", "temperature", some 18, some 25, none, none, none, none,
       none, ["ops@example.com"], true, none⟩ 25 none).1 = false ∧
    (triggeredValue
      ⟨1, some "d1", "temperature", some 18, some 25, none, none, none, none,
       none, ["ops@example.com"], true, none⟩ (249 / 10) none).1 = false ∧
    evalAlert (.ok ())
      ⟨1, some "d1", "humidity", some 30, some 60, none, none, none, none,
       none, ["ops@example.com"], true, none⟩ ⟨0, 1, "12:00"⟩ 26 none
      = ⟨none, false, 0, 0⟩ := by
  refine ⟨?_, ?_, ?_, ?_⟩
  · exact (checkAlerts_threshold_strict.2.1 _ 26 none rfl).mpr
      (Or.inr ⟨25, rfl, by norm_num⟩)
  · rw [Bool.eq_false_iff]
    intro hc
    rcases (checkAlerts_threshold_strict.2.1 _ 25 none rfl).mp hc with
      ⟨m, hm, hlt⟩ | ⟨m, hm, hgt⟩
    · rw [Option.some.injEq] at hm
      rw [← hm] at hlt
      norm_num at hlt
    · rw [Option.some.injEq] at hm
      rw [← hm] at hgt
      norm_num at hgt
  · rw [Bool.eq_false_iff]
    intro hc
    rcases (checkAlerts_threshold_strict.2.1 _ (249 / 10) none rfl).mp hc with
      ⟨m, hm, hlt⟩ | ⟨m, hm, hgt⟩
    · rw [Option.some.injEq] at hm
      rw [← hm] at hlt
      norm_num at hlt
    · rw [Option.some.injEq] at hm
      rw [← hm] at hgt
      norm_num at hgt
  · exact checkAlerts_threshold_strict.1 (.ok ()) _ ⟨0, 1, "12:00"⟩ 26 rfl

/-- Claim C6: within the 1-hour cooldown a triggering evaluation sends
nothing and leaves the rule state unchanged; at or beyond the cooldown it
fires again; consequently two violating events inside an hour yield one
notification and a third event an hour or more after the first yields a
second. -/
theorem checkAlerts_throttle_cooldown :
    (∀ (sres : Except String Unit) (a : AlertRule) (n : Now) (t : ℚ)
        (hum : Option ℚ) (l : Int),
      gatesPass a n = true → (triggeredValue a t hum).1 = true →
      a.lastTriggeredAt = some l →
      (n.epochMs - l < 3600000 → evalAlert sres a n t hum = ⟨some l, false, 0, 0⟩) ∧
      (3600000 ≤ n.epochMs - l →
        evalAlert sres a n t hum
        = ⟨some n.epochMs, true, 1, if sendAlertEmail sres then 0 else 1⟩)) ∧
    (∀ (a : AlertRule) (n1 n2 n3 : Now) (t1 t2 t3 : ℚ) (h1 h2 h3 : Option ℚ),
      a.lastTriggeredAt = none →
      gatesPass a n1 = true → gatesPass a n2 = true → gatesPass a n3 = true →
      (triggeredValue a t1 h1).1 = true → (triggeredValue a t2 h2).1 = true →
      (triggeredValue a t3 h3).1 = true →
      n2.epochMs - n1.epochMs < 3600000 → 3600000 ≤ n3.epochMs - n1.epochMs →
      runEvents a [(n1, t1, h1), (n2, t2, h2)]
        = ({ a with lastTriggeredAt := some n1.epochMs }, 1) ∧
      runEvents a [(n1, t1, h1), (n2, t2, h2), (n3, t3, h3)]
        = ({ a with lastTriggeredAt := some n3.epochMs }, 2)) := by
  constructor
  · intro sres a n t hum l hg htr hl
    exact ⟨fun hc => evalAlert_throttled sres a n t hum l hg htr hl hc,
      fun hc => evalAlert_fires sres a n t hum hg htr (Or.inr ⟨l, hl, hc⟩)⟩
  · intro a n1 n2 n3 t1 t2 t3 h1 h2 h3 hl hg1 hg2 hg3 htr1 htr2 htr3 hc2 hc3
    have e1 := evalAlert_fires (.ok ()) a n1 t1 h1 hg1 htr1 (Or.inl hl)
    have e2 := evalAlert_throttled (.ok ()) { a with lastTriggeredAt := some n1.epochMs }
      n2 t2 h2 n1.epochMs (by rw [gatesPass_update]; exact hg2)
      (by rw [triggeredValue_update]; exact htr2) rfl hc2
    have e3 := evalAlert_fires (.ok ()) { a with lastTriggeredAt := some n1.epochMs }
      n3 t3 h3 (by rw [gatesPass_update]; exact hg3)
      (by rw [triggeredValue_update]; exact htr3)
      (Or.inr ⟨n1.epochMs, rfl, hc3⟩)
    constructor
    · simp [runEvents, e1, e2, sendAlertEmail]
    · simp [runEvents, e1, e2, e3, sendAlertEmail]

/-- Witness for C6: temperature rule max=25 with violating events at
t=0, t=10 minutes and t=61 minutes — one notification after two events,
two after three. -/
theorem checkAlerts_throttle_cooldown_witness :
    runEvents
      ⟨1, some "d1", "temperature", none, some 25, none, none, none, none,
       none, ["ops@example.com"], true, none⟩
      [(⟨0, 1, "12:00"⟩, 26, none), (⟨600000, 1, "12:10"⟩, 26, none)]
      = (⟨1, some "d1", "temperature", none, some 25, none, none, none, none,
          none, ["ops@example.com"], true, some 0⟩, 1) ∧
    runEvents
      ⟨1, some "d1", "temperature", none, some 25, none, none, none, none,
       none, ["ops@example.com"], true, none⟩
      [(⟨0, 1, "12:00"⟩, 26, none), (⟨600000, 1, "12:10"⟩, 26, none),
       (⟨3660000, 1, "13:01"⟩, 26, none)]
      = (⟨1, some "d1", "temperature", none, some 25, none, none, none, none,
          none, ["ops@example.com"], true, some 3660000⟩, 2) :=
  checkAlerts_throttle_cooldown.2
    ⟨1, some "d1", "temperature", none, some 25, none, none, none, none,
     none, ["ops@example.com"], true, none⟩
    ⟨0, 1, "12:00"⟩ ⟨600000, 1, "12:10"⟩ ⟨3660000, 1, "13:01"⟩ 26 26 26 none none none
    rfl (by decide) (by decide) (by decide) (by decide) (by decide) (by decide)
    (by decide) (by decide)

/-- Claim C8: when the Notification Sink fails during a fire, the error is
caught and logged only, the send is attempted exactly once, and the rule's
last-triggered timestamp is still updated to now — the outcome is identical
to a successful send except for the logged error. -/
theorem checkAlerts_sink_failure_fire_and_forget
    (a : AlertRule) (n : Now) (t : ℚ) (hum : Option ℚ) (err : String)
    (hg : gatesPass a n = true) (htr : (triggeredValue a t hum).1 = true)
    (hnt : a.lastTriggeredAt = none ∨
      ∃ l, a.lastTriggeredAt = some l ∧ 3600000 ≤ n.epochMs - l) :
    evalAlert (.error err) a n t hum = ⟨some n.epochMs, true, 1, 1⟩ ∧
    (evalAlert (.error err) a n t hum).lastTriggeredAt
      = (evalAlert (.ok ()) a n t hum).lastTriggeredAt ∧
    (evalAlert (.error err) a n t hum).fired
      = (evalAlert (.ok ()) a n t hum).fired ∧
    (evalAlert (.error err) a n t hum).sendAttempts
      = (evalAlert (.ok ()) a n t hum).sendAttempts ∧
    sendAlertEmail (Except.error err) = false := by
  have he := evalAlert_fires (.error err) a n t hum hg htr hnt
  have ho := evalAlert_fires (.ok ()) a n t hum hg htr hnt
  simp [he, ho, sendAlertEmail]

/-- Witness for C8: a sink failure at a firing evaluation still updates the
rule's last-triggered time exactly as a success would. -/
theorem checkAlerts_sink_failure_fire_and_forget_witness :
    evalAlert (.error "boom")
      ⟨1, some "d1", "temperature", none, some 25, none, none, none, none,
       none, ["ops@example.com"], true, none⟩ ⟨0, 1, "12:00"⟩ 26 none
    = ⟨some 0, true, 1, 1⟩ :=
  (checkAlerts_sink_failure_fire_and_forget
    ⟨1, some "d1", "temperature", none, some 25, none, none, none, none,
     none, ["ops@example.com"], true, none⟩ ⟨0, 1, "12:00"⟩ 26 none "boom"
    (by decide) (by decide) (Or.inl rfl)).1

theorem perm_insertSorted {α : Type} [LinearOrder α] (x : α) (l : List α) :
    List.Perm (insertSorted x l) (x :: l) := by
  induction l with
  | nil => exact List.Perm.refl _
  | cons y ys ih =>
    rw [insertSorted]
    by_cases h : x ≤ y
    · rw [if_pos h]
    · rw [if_neg h]
      exact (List.Perm.cons y ih).trans (List.Perm.swap x y ys)

theorem perm_sortL {α : Type} [LinearOrder α] (l : List α) :
    List.Perm (sortL l) l := by
  induction l with
  | nil => exact List.Perm.refl _
  | cons x xs ih =>
    rw [sortL]
    exact (perm_insertSorted x (sortL xs)).trans (List.Perm.cons x ih)

theorem mem_sortL {α : Type} [LinearOrder α] (x : α) (l : List α) :
    x ∈ sortL l ↔ x ∈ l :=
  (perm_sortL l).mem_iff

theorem countP_eq_of_nodup {α : Type} [DecidableEq α] (l : List α) (h : l.Nodup)
    (b : α) : l.countP (fun a => decide (a = b)) = if b ∈ l then 1 else 0 := by
  induction l with
  | nil => simp
  | cons a l ih =>
    rw [List.nodup_cons] at h
    rw [List.countP_cons]
    by_cases hab : a = b
    · subst hab
      simp [h.1, ih h.2]
    · simp [hab, ih h.2, Ne.symm hab]

theorem valuesFor_fields (g : Gran) (lo hi : Int) (d : Option String)
    (rs : List Reading) (a : AggRow) (ha : a ∈ valuesFor g lo hi d rs) :
    a.deviceId = d ∧ a.granularity = g := by
  rcases List.mem_map.mp ha with ⟨p, _, rfl⟩
  exact ⟨rfl, rfl⟩

theorem mem_joinVals (g : Gran) (lo hi : Int) (rs : List Reading)
    (D : List (Option String)) (a : AggRow) :
    a ∈ joinVals g lo hi rs D ↔ ∃ d ∈ D, a ∈ valuesFor g lo hi d rs := by
  induction D with
  | nil => simp [joinVals]
  | cons d ds ih => simp [joinVals, ih]

theorem foldl_stepDevice (g : Gran) (lo hi : Int) (rs : List Reading) :
    ∀ (D : List (Option String)), D.Nodup →
    ∀ (S : List AggRow), (∀ x ∈ S, x.deviceId ∉ D) →
    D.foldl (stepDevice g lo hi rs) S = S ++ joinVals g lo hi rs D := by
  intro D
  induction D with
  | nil =>
    intro _ S _
    simp [joinVals]
  | cons d ds ih =>
    intro hD S hS
    rw [List.nodup_cons] at hD
    have hstep : stepDevice g lo hi rs S d = S ++ valuesFor g lo hi d rs := by
      rw [stepDevice]
      by_cases hv : valuesFor g lo hi d rs = []
      · rw [if_pos hv, hv, List.append_nil]
      · rw [if_neg hv]
        congr 1
        rw [List.filter_eq_self]
        intro x hx
        have hxd : x.deviceId ≠ d := by
          intro hxe
          exact hS x hx (hxe ▸ List.mem_cons_self d ds)
        simp [delPred, hxd]
    have hS2 : ∀ x ∈ S ++ valuesFor g lo hi d rs, x.deviceId ∉ ds := by
      intro x hx
      rcases List.mem_append.mp hx with hx | hx
      · exact fun hmem => hS x hx (List.mem_cons_of_mem d hmem)
      · rw [(valuesFor_fields g lo hi d rs x hx).1]
        exact hD.1
    rw [List.foldl_cons, hstep, ih hD.2 _ hS2, joinVals, List.append_assoc]

theorem aggregateAndStore_empty (g : Gran) (lo hi : Int) (rs : List Reading) :
    aggregateAndStore g lo hi rs []
    = joinVals g lo hi rs (distinctDevices rs lo hi) := by
  rw [aggregateAndStore,
    foldl_stepDevice g lo hi rs (distinctDevices rs lo hi) (List.nodup_dedup _) []
      (by intro x hx; cases hx), List.nil_append]

theorem mem_readingsFor (rs : List Reading) (lo hi : Int) (d : Option String)
    (r : Reading) :
    r ∈ readingsFor rs lo hi d ↔
      r ∈ rs ∧ inRange lo hi r.takenAt = true ∧ r.deviceId = d := by
  rw [readingsFor, List.mem_filter]
  simp [and_assoc]

theorem mem_distinctDevices_of (rs : List Reading) (lo hi : Int)
    (d : Option String) (r : Reading) (hr : r ∈ rs)
    (hinr : inRange lo hi r.takenAt = true) (hd : r.deviceId = d) :
    d ∈ distinctDevices rs lo hi := by
  rw [distinctDevices, List.mem_dedup, List.mem_map]
  exact ⟨r, List.mem_filter.mpr ⟨hr, hinr⟩, hd⟩

theorem bucket_mem_iff (g : Gran) (lo hi : Int) (d : Option String)
    (rs : List Reading) (b : Int) :
    b ∈ (readingsFor rs lo hi d).map (fun r => bucketStart g r.takenAt) ↔
    (readingsFor rs lo hi d).filter (fun r => decide (bucketStart g r.takenAt = b))
      ≠ [] := by
  rw [List.mem_map]
  constructor
  · rintro ⟨r, hr, rfl⟩ hnil
    have hmem : r ∈ (readingsFor rs lo hi d).filter
        (fun r2 => decide (bucketStart g r2.takenAt = bucketStart g r.takenAt)) :=
      List.mem_filter.mpr ⟨hr, by simp⟩
    rw [hnil] at hmem
    cases hmem
  · intro hne
    obtain ⟨r, hr⟩ := List.exists_mem_of_ne_nil _ hne
    have hrf := List.mem_filter.mp hr
    exact ⟨r, hrf.1, of_decide_eq_true hrf.2⟩

theorem mem_valuesFor (g : Gran) (lo hi : Int) (d : Option String)
    (rs : List Reading) (a : AggRow) :
    a ∈ valuesFor g lo hi d rs ↔
    ∃ b ∈ (readingsFor rs lo hi d).map (fun r => bucketStart g r.takenAt),
      a = ⟨b, g, median (((readingsFor rs lo hi d).filter
        (fun r => decide (bucketStart g r.takenAt = b))).map
          (fun r => r.temperatureC)), d⟩ := by
  rw [valuesFor, groupRows]
  simp only [List.mem_map, List.mem_dedup, mem_sortL]
  constructor
  · rintro ⟨p, ⟨b, hb, rfl⟩, rfl⟩
    exact ⟨b, hb, rfl⟩
  · rintro ⟨b, hb, rfl⟩
    exact ⟨(b, median (((readingsFor rs lo hi d).filter
      (fun r => decide (bucketStart g r.takenAt = b))).map
        (fun r => r.temperatureC))), ⟨b, hb, rfl⟩, rfl⟩

theorem mem_aggregateAndStore (g : Gran) (lo hi : Int) (rs : List Reading)
    (d : Option String) (b : Int) (v : ℚ) :
    (AggRow.mk b g v d ∈ aggregateAndStore g lo hi rs []) ↔
    ((readingsFor rs lo hi d).filter
        (fun r => decide (bucketStart g r.takenAt = b)) ≠ [] ∧
      v = median (((readingsFor rs lo hi d).filter
        (fun r => decide (bucketStart g r.takenAt = b))).map
          (fun r => r.temperatureC))) := by
  rw [aggregateAndStore_empty, mem_joinVals]
  constructor
  · rintro ⟨dd, hdd, hmem⟩
    have hdev : dd = d := ((valuesFor_fields g lo hi dd rs _ hmem).1).symm
    subst hdev
    rcases (mem_valuesFor g lo hi dd rs _).mp hmem with ⟨bb, hbb, heq⟩
    rw [AggRow.mk.injEq] at heq
    obtain ⟨hb, -, hv, -⟩ := heq
    subst hb
    exact ⟨(bucket_mem_iff g lo hi dd rs b).mp hbb, hv⟩
  · rintro ⟨hne, rfl⟩
    obtain ⟨r, hr⟩ := List.exists_mem_of_ne_nil _ hne
    have hrr := (mem_readingsFor rs lo hi d r).mp (List.mem_filter.mp hr).1
    refine ⟨d, mem_distinctDevices_of rs lo hi d r hrr.1 hrr.2.1 hrr.2.2, ?_⟩
    rw [mem_valuesFor]
    exact ⟨b, (bucket_mem_iff g lo hi d rs b).mpr hne, rfl⟩

theorem countP_valuesFor_ne (g : Gran) (lo hi : Int) (d dd : Option String)
    (rs : List Reading) (b : Int) (hne : dd ≠ d) :
    (valuesFor g lo hi dd rs).countP (aggKey d g b) = 0 := by
  rw [List.countP_eq_zero]
  intro a ha
  have hf := valuesFor_fields g lo hi dd rs a ha
  simp [aggKey, hf.1, hne]

theorem countP_valuesFor_self (g : Gran) (lo hi : Int) (d : Option String)
    (rs : List Reading) (b : Int) :
    (valuesFor g lo hi d rs).countP (aggKey d g b)
    = if (readingsFor rs lo hi d).filter
        (fun r => decide (bucketStart g r.takenAt = b)) = [] then 0 else 1 := by
  rw [valuesFor, List.countP_map, groupRows, List.countP_map]
  have hfun : ((aggKey d g b ∘ fun p => AggRow.mk p.1 g p.2 d) ∘ fun bb =>
      (bb, median (((readingsFor rs lo hi d).filter
        (fun r => decide (bucketStart g r.takenAt = bb))).map
          (fun r => r.temperatureC))))
      = fun bb => decide (bb = b) := by
    funext bb
    simp [aggKey]
  rw [hfun, List.Perm.countP_eq _ (perm_sortL _),
    countP_eq_of_nodup _ (List.nodup_dedup _) b]
  by_cases hb : (readingsFor rs lo hi d).filter
      (fun r => decide (bucketStart g r.takenAt = b)) = []
  · rw [if_pos hb, if_neg]
    rw [List.mem_dedup, bucket_mem_iff]
    intro hc
    exact hc hb
  · rw [if_neg hb, if_pos]
    rw [List.mem_dedup, bucket_mem_iff]
    exact hb

theorem countP_joinVals_not_mem (g : Gran) (lo hi : Int) (rs : List Reading)
    (d : Option String) (b : Int) :
    ∀ D : List (Option String), d ∉ D →
    (joinVals g lo hi rs D).countP (aggKey d g b) = 0 := by
  intro D
  induction D with
  | nil =>
    intro _
    rfl
  | cons dd ds ih =>
    intro hd
    rw [joinVals, List.countP_append,
      countP_valuesFor_ne g lo hi d dd rs b (fun he => hd (he ▸ List.mem_cons_self dd ds)),
      ih (fun hm => hd (List.mem_cons_of_mem dd hm))]

theorem countP_joinVals_mem (g : Gran) (lo hi : Int) (rs : List Reading)
    (d : Option String) (b : Int) :
    ∀ D : List (Option String), D.Nodup → d ∈ D →
    (joinVals g lo hi rs D).countP (aggKey d g b)
    = (valuesFor g lo hi d rs).countP (aggKey d g b) := by
  intro D
  induction D with
  | nil =>
    intro _ hmem
    cases hmem
  | cons dd ds ih =>
    intro hD hmem
    rw [List.nodup_cons] at hD
    rw [joinVals, List.countP_append]
    rcases List.mem_cons.mp hmem with rfl | hmem2
    · rw [countP_joinVals_not_mem g lo hi rs d b ds hD.1, Nat.add_zero]
    · have hne : dd ≠ d := fun he => hD.1 (he ▸ hmem2)
      rw [countP_valuesFor_ne g lo hi d dd rs b hne, ih hD.2 hmem2, Nat.zero_add]

theorem countP_aggregateAndStore (g : Gran) (lo hi : Int) (rs : List Reading)
    (d : Option String) (b : Int) :
    (aggregateAndStore g lo hi rs []).countP (aggKey d g b)
    = if (readingsFor rs lo hi d).filter
        (fun r => decide (bucketStart g r.takenAt = b)) = [] then 0 else 1 := by
  rw [aggregateAndStore_empty]
  by_cases hd : d ∈ distinctDevices rs lo hi
  · rw [countP_joinVals_mem g lo hi rs d b (distinctDevices rs lo hi)
        (List.nodup_dedup _) hd,
      countP_valuesFor_self]
  · rw [countP_joinVals_not_mem g lo hi rs d b _ hd, if_pos]
    by_contra hne
    obtain ⟨r, hr⟩ := List.exists_mem_of_ne_nil _ hne
    have hrr := (mem_readingsFor rs lo hi d r).mp (List.mem_filter.mp hr).1
    exact hd (mem_distinctDevices_of rs lo hi d r hrr.1 hrr.2.1 hrr.2.2)

theorem bucketStart_le (g : Gran) (t : Int) : bucketStart g t ≤ t := by
  rw [bucketStart_eq_width, Int.fdiv_eq_ediv _ (le_of_lt (granWidth_pos g))]
  exact Int.ediv_mul_le t (ne_of_gt (granWidth_pos g))

theorem bucketStart_mono (g : Gran) {a b : Int} (h : a ≤ b) :
    bucketStart g a ≤ bucketStart g b := by
  rw [bucketStart_eq_width, bucketStart_eq_width,
    Int.fdiv_eq_ediv _ (le_of_lt (granWidth_pos g)),
    Int.fdiv_eq_ediv _ (le_of_lt (granWidth_pos g))]
  exact mul_le_mul_of_nonneg_right (Int.ediv_le_ediv (granWidth_pos g) h)
    (le_of_lt (granWidth_pos g))

theorem delPred_valuesFor (g : Gran) (lo hi : Int) (d : Option String)
    (rs : List Reading) (halign : bucketStart g lo = lo) (a : AggRow)
    (ha : a ∈ valuesFor g lo hi d rs) : delPred g lo hi d a = true := by
  rcases (mem_valuesFor g lo hi d rs a).mp ha with ⟨b, hb, rfl⟩
  rcases List.mem_map.mp hb with ⟨r, hr, rfl⟩
  have hrr := (mem_readingsFor rs lo hi d r).mp hr
  have hlohi : lo ≤ r.takenAt ∧ r.takenAt ≤ hi := by
    have := hrr.2.1
    rw [inRange, Bool.and_eq_true, decide_eq_true_eq, decide_eq_true_eq] at this
    exact this
  have h1 : lo ≤ bucketStart g r.takenAt := by
    calc lo = bucketStart g lo := halign.symm
      _ ≤ bucketStart g r.takenAt := bucketStart_mono g hlohi.1
  have h2 : bucketStart g r.takenAt ≤ hi :=
    le_trans (bucketStart_le g r.takenAt) hlohi.2
  simp [delPred, inRange, h1, h2]

theorem valuesFor_ne_nil (g : Gran) (lo hi : Int) (rs : List Reading)
    (dd : Option String) (hd : dd ∈ distinctDevices rs lo hi) :
    valuesFor g lo hi dd rs ≠ [] := by
  rw [distinctDevices, List.mem_dedup, List.mem_map] at hd
  obtain ⟨r, hr, hdev⟩ := hd
  have hrf := List.mem_filter.mp hr
  have hmem : r ∈ readingsFor rs lo hi dd :=
    (mem_readingsFor rs lo hi dd r).mpr ⟨hrf.1, hrf.2, hdev⟩
  apply List.ne_nil_of_mem
  rw [mem_valuesFor]
  exact ⟨bucketStart g r.takenAt, List.mem_map.mpr ⟨r, hmem, rfl⟩, rfl⟩

theorem foldl_stepDevice_closed (g : Gran) (lo hi : Int) (rs : List Reading) :
    ∀ D : List (Option String), D.Nodup →
    (∀ dd ∈ D, valuesFor g lo hi dd rs ≠ []) →
    ∀ S : List AggRow,
    D.foldl (stepDevice g lo hi rs) S = deleteAll g lo hi D S ++ joinVals g lo hi rs D := by
  intro D
  induction D with
  | nil =>
    intro _ _ S
    simp [joinVals, deleteAll]
  | cons d ds ih =>
    intro hD hV S
    rw [List.nodup_cons] at hD
    have hstep : stepDevice g lo hi rs S d
        = S.filter (fun a => !delPred g lo hi d a) ++ valuesFor g lo hi d rs := by
      rw [stepDevice, if_neg (hV d (List.mem_cons_self d ds))]
    rw [List.foldl_cons, hstep,
      ih hD.2 (fun dd hdd => hV dd (List.mem_cons_of_mem d hdd)) _]
    rw [deleteAll, deleteAll, List.filter_append, List.filter_filter]
    have h1 : List.filter
        (fun a => (!ds.any fun dd => delPred g lo hi dd a) && !delPred g lo hi d a) S
        = List.filter (fun a => !(d :: ds).any fun dd => delPred g lo hi dd a) S := by
      apply List.filter_congr
      intro x _
      rw [List.any_cons, Bool.not_or, Bool.and_comm]
    have h2 : List.filter
        (fun a => !ds.any fun dd => delPred g lo hi dd a) (valuesFor g lo hi d rs)
        = valuesFor g lo hi d rs := by
      rw [List.filter_eq_self]
      intro a ha
      have hdev : a.deviceId = d := (valuesFor_fields g lo hi d rs a ha).1
      rw [Bool.not_eq_eq_eq_not, Bool.not_true, List.any_eq_false]
      intro dd hdd
      have hne : dd ≠ d := fun he => hD.1 (he ▸ hdd)
      simp [delPred, hdev, Ne.symm hne]
    rw [h1, h2, joinVals, List.append_assoc]

theorem aggregateAndStore_closed (g : Gran) (lo hi : Int) (rs : List Reading)
    (S : List AggRow) :
    aggregateAndStore g lo hi rs S
    = deleteAll g lo hi (distinctDevices rs lo hi) S
      ++ joinVals g lo hi rs (distinctDevices rs lo hi) := by
  rw [aggregateAndStore]
  exact foldl_stepDevice_closed g lo hi rs (distinctDevices rs lo hi)
    (List.nodup_dedup _) (fun dd hdd => valuesFor_ne_nil g lo hi rs dd hdd) S

/-- Rerunning aggregateAndStore over an unchanged reading set is idempotent
whenever the window start is bucket-aligned: every recomputed bucket then
starts inside [from, to], so the per-device delete removes exactly the rows
the rerun would re-insert. -/
theorem aggregateAndStore_rerun_aligned (g : Gran) (lo hi : Int)
    (rs : List Reading) (S : List AggRow) (halign : bucketStart g lo = lo) :
    aggregateAndStore g lo hi rs (aggregateAndStore g lo hi rs S)
    = aggregateAndStore g lo hi rs S := by
  rw [aggregateAndStore_closed g lo hi rs S, aggregateAndStore_closed g lo hi rs _]
  rw [deleteAll, List.filter_append]
  have h1 : List.filter
      (fun a => !(distinctDevices rs lo hi).any fun dd => delPred g lo hi dd a)
      (deleteAll g lo hi (distinctDevices rs lo hi) S)
      = deleteAll g lo hi (distinctDevices rs lo hi) S := by
    rw [deleteAll, List.filter_filter]
    apply List.filter_congr
    intro x _
    rw [Bool.and_self]
  have h2 : List.filter
      (fun a => !(distinctDevices rs lo hi).any fun dd => delPred g lo hi dd a)
      (joinVals g lo hi rs (distinctDevices rs lo hi)) = [] := by
    rw [List.filter_eq_nil_iff]
    intro a ha
    rcases (mem_joinVals g lo hi rs _ a).mp ha with ⟨dd, hdd, hmem⟩
    rw [Bool.not_eq_true, Bool.not_eq_false']
    exact List.any_eq_true.mpr ⟨dd, hdd, delPred_valuesFor g lo hi dd rs halign a hmem⟩
  rw [h1, h2, List.append_nil]

/-- Claim C1 (range amended from half-open to the closed [from, to] that the
code implements): a row (b, g, v, d) is stored by aggregateAndStore over an
empty aggregate table exactly when device d has at least one reading in the
closed window whose bucket start is b, and then v is the median of that
bucket's temperatures; and for every (device, granularity, bucket start) key
exactly one row is stored when that bucket group is non-empty and none
otherwise — in particular a device with no readings in the window produces
no rows. -/
theorem aggregate_buckets_closed_range (g : Gran) (lo hi : Int)
    (rs : List Reading) (d : Option String) (b : Int) (v : ℚ) :
    ((AggRow.mk b g v d ∈ aggregateAndStore g lo hi rs []) ↔
      ((readingsFor rs lo hi d).filter
          (fun r => decide (bucketStart g r.takenAt = b)) ≠ [] ∧
        v = median (((readingsFor rs lo hi d).filter
          (fun r => decide (bucketStart g r.takenAt = b))).map
            (fun r => r.temperatureC)))) ∧
    (aggregateAndStore g lo hi rs []).countP (aggKey d g b)
      = (if (readingsFor rs lo hi d).filter
          (fun r => decide (bucketStart g r.takenAt = b)) = [] then 0 else 1) :=
  ⟨mem_aggregateAndStore g lo hi rs d b v, countP_aggregateAndStore g lo hi rs d b⟩

/-- Claim C1 counterexample: a reading at exactly `to` lies outside the
half-open range [from, to) the claim describes, so under the claim its
device has zero readings in range and must produce no buckets; the code
queries the closed range [from, to] and stores a bucket for it. -/
theorem aggregate_includes_reading_at_to :
    ([⟨900, 20, none, some "d1"⟩] : List Reading).filter
      (fun r => inRangeHalfOpenSpec 0 900 r.takenAt) = [] ∧
    aggregateAndStore .g5m 0 900 [⟨900, 20, none, some "d1"⟩] []
      = [⟨900, .g5m, 20, some "d1"⟩] := by
  constructor
  · decide
  · decide

end HeatSync
